import Mathlib

/-!
Verification of the Notes API (a CRUD note-taking service).

The repository's `src/backend/main.py` is the HTTP routing layer; it
delegates to a `crud` module (the Data Access Layer) and a `models`
module (request/response contracts) that are not part of the source
tree, so those two are modelled from the specification.  The HTTP
routes, status codes, query-parameter defaults and the per-request
session scope (`get_db`) are embedded from `main.py` itself.

A note store is a list of notes in insertion order together with the
next id the storage engine will assign.
-/

/-- A persisted note: `id` (assigned by the engine), `title`, `body`.
Mirrors the `notes` table of the persistence schema. -/
structure Note where
  id : Nat
  title : String
  body : String
deriving Repr, DecidableEq

/-- The state of the storage engine: the rows of the `notes` table in
insertion order, and the next primary key the engine will auto-assign. -/
structure Store where
  notes : List Note
  nextId : Nat
deriving Repr, DecidableEq

/-- The empty store; the engine starts assigning ids at 1. -/
def Store.empty : Store := ⟨[], 1⟩

/-- Well-formedness of a store: every persisted id is below the next id
to be assigned, and the rows are strictly increasing by id (so insertion
order coincides with id order and ids are unique). -/
def Store.Wf (s : Store) : Prop :=
  (∀ n ∈ s.notes, n.id < s.nextId) ∧ s.notes.Pairwise (fun a b => a.id < b.id)

instance (s : Store) : Decidable s.Wf := by
  unfold Store.Wf
  infer_instance

/-- Boolean test that the character list `n` is a prefix of `h`. -/
def charsPre : List Char → List Char → Bool
  | [], _ => true
  | _ :: _, [] => false
  | a :: as, b :: bs => a == b && charsPre as bs

/-- Boolean test that the character list `n` occurs contiguously inside `h`. -/
def charsSub : List Char → List Char → Bool
  | n, [] => n.isEmpty
  | n, b :: bs => charsPre n (b :: bs) || charsSub n bs

/-- Substring containment on strings: `strContains hay needle` holds when
`needle` occurs contiguously inside `hay`.  This is the "title contains
the search text as a substring" test of the Data Access Layer. -/
def strContains (hay needle : String) : Bool :=
  charsSub needle.data hay.data

theorem charsPre_iff (n h : List Char) : charsPre n h = true ↔ ∃ r, h = n ++ r := by
  induction n generalizing h with
  | nil => simp [charsPre]
  | cons a as ih =>
    cases h with
    | nil => simp [charsPre]
    | cons b bs =>
      simp only [charsPre, Bool.and_eq_true, beq_iff_eq, ih, List.cons_append,
        List.cons.injEq]
      constructor
      · rintro ⟨rfl, r, rfl⟩
        exact ⟨r, rfl, rfl⟩
      · rintro ⟨r, rfl, rfl⟩
        exact ⟨rfl, r, rfl⟩

theorem charsSub_iff (n h : List Char) : charsSub n h = true ↔ ∃ l r, h = l ++ n ++ r := by
  induction h with
  | nil =>
    simp only [charsSub, List.isEmpty_iff]
    constructor
    · rintro rfl
      exact ⟨[], [], rfl⟩
    · rintro ⟨l, r, he⟩
      rcases List.append_eq_nil.mp (List.append_eq_nil.mp he.symm).1 with ⟨-, h2⟩
      exact h2
  | cons b bs ih =>
    simp only [charsSub, Bool.or_eq_true, charsPre_iff, ih]
    constructor
    · rintro (⟨r, hr⟩ | ⟨l, r, rfl⟩)
      · exact ⟨[], r, by simpa using hr⟩
      · exact ⟨b :: l, r, rfl⟩
    · rintro ⟨l, r, he⟩
      cases l with
      | nil =>
        left
        exact ⟨r, by simpa using he⟩
      | cons x xs =>
        right
        rw [List.cons_append, List.cons_append, List.cons.injEq] at he
        exact ⟨xs, r, he.2⟩

theorem charsSub_nil (h : List Char) : charsSub [] h = true := by
  cases h <;> simp [charsSub, charsPre]

namespace crud

/-- Modelled from the spec: `crud.create_note` (the `crud` module is not
under `src/`).  Section 4.2: "create(title, body) → Note.  Always
succeeds; assigns a new unique id; returns the full persisted record."
The engine appends the row and auto-assigns the next primary key. -/
def create_note (db : Store) (title bodyText : String) : Note × Store :=
  let n : Note := ⟨db.nextId, title, bodyText⟩
  (n, ⟨db.notes ++ [n], db.nextId + 1⟩)

/-- Modelled from the spec: `crud.get_note` (the `crud` module is not
under `src/`).  Section 4.2: "get(id) → Note or absent.  Returns the
single note matching id, or an absent signal if none exists." -/
def get_note (db : Store) (note_id : Nat) : Option Note :=
  db.notes.find? (fun n => n.id == note_id)

/-- Modelled from the spec: `crud.update_note` (the `crud` module is not
under `src/`).  Section 4.2: "update(id, title?, body?) → Note or absent.
If no note with id exists, returns absent.  Otherwise applies only the
fields present in the request, leaves others unchanged, persists, and
returns the updated record." -/
def update_note (db : Store) (note_id : Nat) (optTitle optBody : Option String) :
    Option Note × Store :=
  match get_note db note_id with
  | none => (none, db)
  | some old =>
      let updated : Note := ⟨old.id, optTitle.getD old.title, optBody.getD old.body⟩
      (some updated,
       ⟨db.notes.map (fun n => if n.id == note_id then updated else n), db.nextId⟩)

/-- Modelled from the spec: `crud.delete_note` (the `crud` module is not
under `src/`).  Section 4.2: "delete(id) → boolean.  Returns true if a
note existed and was removed; false if no note matched id." -/
def delete_note (db : Store) (note_id : Nat) : Bool × Store :=
  if db.notes.any (fun n => n.id == note_id) then
    (true, ⟨db.notes.filter (fun n => n.id != note_id), db.nextId⟩)
  else
    (false, db)

/-- Modelled from the spec: the matching rows of `crud.get_notes`
before pagination (the `crud` module is not under `src/`).  Section 4.2:
"If search is present, returns only notes whose title contains the
search text as a substring"; ordering is insertion order (id ascending). -/
def list_notes_matching (db : Store) (search : Option String) : List Note :=
  match search with
  | none => db.notes
  | some t => db.notes.filter (fun n => strContains n.title t)

/-- Modelled from the spec: `crud.get_notes` (the `crud` module is not
under `src/`).  Section 4.2: "skip discards the first N matches; limit
caps the result count." -/
def get_notes (db : Store) (skip limit : Nat) (search : Option String) : List Note :=
  ((list_notes_matching db search).drop skip).take limit

end crud

/-- An HTTP error raised by a route handler, as in
`raise HTTPException(status_code=404, detail="Note not found")`. -/
structure HTTPException where
  status_code : Nat
  detail : String
deriving Repr, DecidableEq

/-- A JSON value of a request-body field (the shapes the contracts
distinguish: text, number, boolean, null). -/
inductive Json where
  | str (s : String)
  | num (i : Int)
  | jbool (b : Bool)
  | null
deriving Repr, DecidableEq

/-- A raw request body for the note endpoints: each contract field is
either absent or holds some JSON value. -/
structure RawBody where
  title : Option Json
  body : Option Json
deriving Repr, DecidableEq

/-- Modelled from the spec: the creation contract `models.NoteCreate`
(the `models` module is not under `src/`).  Section 4.3: "Creation
input: \x7btitle: text (required), body: text (required)\x7d". -/
structure NoteCreate where
  title : String
  body : String
deriving Repr, DecidableEq

/-- Modelled from the spec: the update contract `models.NoteUpdate`
(the `models` module is not under `src/`).  Section 4.3: "Update input:
\x7btitle: text (optional), body: text (optional)\x7d — absence must be
distinguishable from an empty string". -/
structure NoteUpdate where
  title : Option String
  body : Option String
deriving Repr, DecidableEq

/-- A required text field accepts exactly a JSON string. -/
def asText : Option Json → Option String
  | some (Json.str s) => some s
  | _ => none

/-- An optional text field accepts absence or a JSON string; any other
JSON value is a type error. -/
def asOptText : Option Json → Option (Option String)
  | none => some none
  | some (Json.str s) => some (some s)
  | some _ => none

/-- Modelled from the spec: framework validation of a creation body
against `models.NoteCreate` (the `models` module is not under `src/`).
Section 4.4: "Validation failures (missing required fields, wrong
types) are rejected before reaching the Data Access Layer". -/
def parseNoteCreate (raw : RawBody) : Option NoteCreate :=
  match asText raw.title, asText raw.body with
  | some t, some b => some ⟨t, b⟩
  | _, _ => none

/-- Modelled from the spec: framework validation of an update body
against `models.NoteUpdate` (the `models` module is not under `src/`). -/
def parseNoteUpdate (raw : RawBody) : Option NoteUpdate :=
  match asOptText raw.title, asOptText raw.body with
  | some t, some b => some ⟨t, b⟩
  | _, _ => none

/-- Route handler for `GET /notes` (main.py:42-52): applies the declared
query-parameter defaults `skip = 0`, `limit = 100` and delegates to
`crud.get_notes`. -/
def get_notes (db : Store) (skip limit : Option Nat) (search : Option String) :
    Except HTTPException (List Note) :=
  Except.ok (crud.get_notes db (skip.getD 0) (limit.getD 100) search)

/-- Route handler for `GET /notes/\x7bnote_id\x7d` (main.py:54-64): 404 when
`crud.get_note` returns absent, otherwise the note. -/
def get_note (db : Store) (note_id : Nat) : Except HTTPException Note :=
  match crud.get_note db note_id with
  | none => Except.error ⟨404, "Note not found"⟩
  | some n => Except.ok n

/-- Route handler for `POST /notes` (main.py:66-74): delegates to
`crud.create_note` with the validated contract fields. -/
def create_note (db : Store) (note : NoteCreate) : Note × Store :=
  crud.create_note db note.title note.body

/-- Route handler for `PUT /notes/\x7bnote_id\x7d` (main.py:76-88): 404 when
`crud.update_note` returns absent, otherwise the updated note. -/
def update_note (db : Store) (note_id : Nat) (note : NoteUpdate) :
    Except HTTPException Note × Store :=
  match crud.update_note db note_id note.title note.body with
  | (none, s) => (Except.error ⟨404, "Note not found"⟩, s)
  | (some n, s) => (Except.ok n, s)

/-- Route handler for `DELETE /notes/\x7bnote_id\x7d` (main.py:90-100): 404
when `crud.delete_note` returns false, otherwise a confirmation. -/
def delete_note (db : Store) (note_id : Nat) : Except HTTPException String × Store :=
  match crud.delete_note db note_id with
  | (true, s) => (Except.ok "Note deleted successfully", s)
  | (false, s) => (Except.error ⟨404, "Note not found"⟩, s)

/-- The HTTP status of a route outcome: the route's declared success
code when the handler returns, the raised exception's code otherwise.
`main.py` declares 201 for `POST /notes` and leaves the 200 default on
the other routes. -/
def routeStatus {ρ : Type} (success : Nat) : Except HTTPException ρ → Nat
  | Except.ok _ => success
  | Except.error e => e.status_code

/-- The full `POST /notes` pipeline: framework validation of the raw
body (422 before the Data Access Layer is reached), then the handler
(201 with the created note).  Returns (status, response payload) and
the resulting store. -/
def post_notes (db : Store) (raw : RawBody) : (Nat × Option Note) × Store :=
  match parseNoteCreate raw with
  | none => ((422, none), db)
  | some nc =>
      let (n, s) := create_note db nc
      ((201, some n), s)

/-- The full `PUT /notes/\x7bnote_id\x7d` pipeline: framework validation of
the raw body (422 before the Data Access Layer), then the handler. -/
def put_notes (db : Store) (note_id : Nat) (raw : RawBody) :
    (Nat × Option Note) × Store :=
  match parseNoteUpdate raw with
  | none => ((422, none), db)
  | some nu =>
      match update_note db note_id nu with
      | (Except.ok n, s) => ((200, some n), s)
      | (Except.error e, s) => ((e.status_code, none), s)

/-- A database session as seen by `get_db` (main.py:30-35): it is open
from `SessionLocal()` until `db.close()`. -/
structure DbSession where
  isOpen : Bool
deriving Repr, DecidableEq

/-- Embedding of `get_db` (main.py:30-35) wrapped around one request:
`db = SessionLocal()` opens the session, the handler runs inside the
`try`, and the `finally` closes the session whether the handler
returned normally or raised.  A raising handler is one whose result is
`Except.error`; either way the same `finally` branch runs. -/
def run_with_db {ρ : Type} (handler : DbSession → Store → Except HTTPException ρ × Store)
    (db0 : Store) : (Except HTTPException ρ × Store) × DbSession :=
  let db : DbSession := ⟨true⟩
  let r := handler db db0
  (r, ⟨false⟩)

/-! ### Supporting lemmas -/

theorem find?_map_update_self (l : List Note) (i : Nat) (nw : Note) (hn : nw.id = i) :
    (l.map (fun n => if n.id == i then nw else n)).find? (fun n => n.id == i)
      = (l.find? (fun n => n.id == i)).map (fun _ => nw) := by
  induction l with
  | nil => simp
  | cons a l ih =>
    simp only [List.map_cons]
    by_cases h : a.id = i
    · have h1 : (if (a.id == i) then nw else a) = nw := by simp [h]
      rw [h1, List.find?_cons_of_pos _ (by simp [hn]), List.find?_cons_of_pos _ (by simp [h])]
      simp
    · have h1 : (if (a.id == i) then nw else a) = a := by simp [h]
      rw [h1, List.find?_cons_of_neg _ (by simp [h]), List.find?_cons_of_neg _ (by simp [h]), ih]

theorem find?_map_update_other (l : List Note) (i j : Nat) (nw : Note)
    (hn : nw.id = i) (hij : j ≠ i) :
    (l.map (fun n => if n.id == i then nw else n)).find? (fun n => n.id == j)
      = l.find? (fun n => n.id == j) := by
  induction l with
  | nil => simp
  | cons a l ih =>
    simp only [List.map_cons]
    by_cases h : a.id = i
    · have h1 : (if (a.id == i) then nw else a) = nw := by simp [h]
      rw [h1, List.find?_cons_of_neg _ (by simp [hn]; exact fun hc => hij hc.symm),
        List.find?_cons_of_neg _ (by simp [h]; exact fun hc => hij hc.symm), ih]
    · have h1 : (if (a.id == i) then nw else a) = a := by simp [h]
      rw [h1]
      by_cases h2 : a.id = j
      · rw [List.find?_cons_of_pos _ (by simp [h2]), List.find?_cons_of_pos _ (by simp [h2])]
      · rw [List.find?_cons_of_neg _ (by simp [h2]), List.find?_cons_of_neg _ (by simp [h2]), ih]

theorem find?_none_of_ne (l : List Note) (i : Nat) (h : ∀ n ∈ l, n.id ≠ i) :
    l.find? (fun n => n.id == i) = none :=
  List.find?_eq_none.mpr (fun x hx => by simp [h x hx])

/-! ### Claim theorems -/

/-- C1: for every valid creation input, `create(title, body)` followed by
`get` with the created note's id returns a note equal to the created one:
same id, title and body.  The hypothesis is the storage-engine freshness
invariant: every persisted id is below the next id to be assigned. -/
theorem create_then_get (db : Store) (t b : String)
    (h : ∀ n ∈ db.notes, n.id < db.nextId) :
    crud.get_note (crud.create_note db t b).2 (crud.create_note db t b).1.id
      = some (crud.create_note db t b).1
    ∧ (crud.create_note db t b).1.title = t
    ∧ (crud.create_note db t b).1.body = b := by
  refine ⟨?_, rfl, rfl⟩
  unfold crud.create_note crud.get_note
  simp only
  rw [List.find?_append, find?_none_of_ne _ _ (fun n hn => Nat.ne_of_lt (h n hn))]
  simp

theorem create_then_get_witness :
    (∀ n ∈ Store.empty.notes, n.id < Store.empty.nextId)
    ∧ (crud.get_note (crud.create_note Store.empty "Groceries" "milk, eggs").2
          (crud.create_note Store.empty "Groceries" "milk, eggs").1.id
        = some (crud.create_note Store.empty "Groceries" "milk, eggs").1
      ∧ (crud.create_note Store.empty "Groceries" "milk, eggs").1.title = "Groceries"
      ∧ (crud.create_note Store.empty "Groceries" "milk, eggs").1.body = "milk, eggs") :=
  ⟨by simp [Store.empty],
   create_then_get Store.empty "Groceries" "milk, eggs" (by simp [Store.empty])⟩

/-- A concrete note used by the witnesses. -/
def sampleNote : Note := ⟨1, "Groceries", "milk, eggs"⟩

/-- A concrete store holding `sampleNote`, used by the witnesses. -/
def sampleStore : Store := ⟨[sampleNote], 2⟩

/-- C2: for an existing note and an update request supplying only the
title, `update` changes only that note's title: the returned and stored
note keeps the old id and body, every other note is untouched, and the
id counter is unchanged. -/
theorem update_title_only (db : Store) (note_id : Nat) (old : Note) (X : String)
    (h : crud.get_note db note_id = some old) :
    (crud.update_note db note_id (some X) none).1 = some ⟨old.id, X, old.body⟩
    ∧ crud.get_note (crud.update_note db note_id (some X) none).2 note_id
        = some ⟨old.id, X, old.body⟩
    ∧ (∀ j, j ≠ note_id →
        crud.get_note (crud.update_note db note_id (some X) none).2 j = crud.get_note db j)
    ∧ (crud.update_note db note_id (some X) none).2.nextId = db.nextId := by
  have hf : db.notes.find? (fun n => n.id == note_id) = some old := h
  have hid : old.id = note_id := by simpa using List.find?_some hf
  unfold crud.update_note
  rw [h]
  simp only [Option.getD_some, Option.getD_none]
  refine ⟨by trivial, ?_, ?_, by trivial⟩
  · show (db.notes.map _).find? _ = _
    rw [find?_map_update_self db.notes note_id ⟨old.id, X, old.body⟩ hid, hf]
    rfl
  · intro j hj
    exact find?_map_update_other db.notes note_id j ⟨old.id, X, old.body⟩ hid hj

theorem update_title_only_witness :
    crud.get_note sampleStore 1 = some sampleNote
    ∧ ((crud.update_note sampleStore 1 (some "Groceries v2") none).1
          = some ⟨sampleNote.id, "Groceries v2", sampleNote.body⟩
      ∧ crud.get_note (crud.update_note sampleStore 1 (some "Groceries v2") none).2 1
          = some ⟨sampleNote.id, "Groceries v2", sampleNote.body⟩
      ∧ (∀ j, j ≠ 1 →
          crud.get_note (crud.update_note sampleStore 1 (some "Groceries v2") none).2 j
            = crud.get_note sampleStore j)
      ∧ (crud.update_note sampleStore 1 (some "Groceries v2") none).2.nextId
          = sampleStore.nextId) :=
  ⟨by decide, update_title_only sampleStore 1 sampleNote "Groceries v2" (by decide)⟩

/-- C5: for an id that matches no stored note, `get` returns absent,
`update` returns absent leaving the store unchanged, `delete` returns
false leaving the store unchanged, and each of the three routes answers
with HTTP status 404 rather than a fatal error. -/
theorem not_found_behavior (db : Store) (i : Nat) (ot ob : Option String) (nu : NoteUpdate)
    (h : ∀ n ∈ db.notes, n.id ≠ i) :
    crud.get_note db i = none
    ∧ crud.update_note db i ot ob = (none, db)
    ∧ crud.delete_note db i = (false, db)
    ∧ routeStatus 200 (get_note db i) = 404
    ∧ routeStatus 200 (update_note db i nu).1 = 404
    ∧ routeStatus 200 (delete_note db i).1 = 404 := by
  have hg : crud.get_note db i = none := find?_none_of_ne db.notes i h
  have ha : db.notes.any (fun n => n.id == i) = false := by
    rw [List.any_eq_false]
    intro x hx
    simp [h x hx]
  have hu : ∀ a b, crud.update_note db i a b = (none, db) := by
    intro a b
    unfold crud.update_note
    rw [hg]
  have hd : crud.delete_note db i = (false, db) := by
    unfold crud.delete_note
    rw [if_neg (by simp [ha])]
  refine ⟨hg, hu ot ob, hd, ?_, ?_, ?_⟩
  · unfold get_note
    rw [hg]
    rfl
  · unfold update_note
    rw [hu nu.title nu.body]
    rfl
  · unfold delete_note
    rw [hd]
    rfl

theorem not_found_behavior_witness :
    (∀ n ∈ sampleStore.notes, n.id ≠ 2)
    ∧ (crud.get_note sampleStore 2 = none
      ∧ crud.update_note sampleStore 2 none none = (none, sampleStore)
      ∧ crud.delete_note sampleStore 2 = (false, sampleStore)
      ∧ routeStatus 200 (get_note sampleStore 2) = 404
      ∧ routeStatus 200 (update_note sampleStore 2 ⟨none, none⟩).1 = 404
      ∧ routeStatus 200 (delete_note sampleStore 2).1 = 404) :=
  ⟨by decide, not_found_behavior sampleStore 2 none none ⟨none, none⟩ (by decide)⟩

/-- C6: once `delete(id)` has succeeded, deleting the same id again
returns false rather than an error, leaves the store unchanged, and the
route answers 404. -/
theorem delete_idempotent (db : Store) (i : Nat)
    (h : (crud.delete_note db i).1 = true) :
    crud.delete_note (crud.delete_note db i).2 i = (false, (crud.delete_note db i).2)
    ∧ routeStatus 200 (delete_note (crud.delete_note db i).2 i).1 = 404 := by
  by_cases hc : db.notes.any (fun n => n.id == i) = true
  · have h2 : crud.delete_note db i
        = (true, ⟨db.notes.filter (fun n => n.id != i), db.nextId⟩) := by
      unfold crud.delete_note
      rw [if_pos hc]
    have hnone : (db.notes.filter (fun n => n.id != i)).any (fun n => n.id == i) = false := by
      rw [List.any_filter, List.any_eq_false]
      intro x _
      cases hxx : (x.id == i) <;> simp [bne, hxx]
    have hdel : crud.delete_note (⟨db.notes.filter (fun n => n.id != i), db.nextId⟩ : Store) i
        = (false, ⟨db.notes.filter (fun n => n.id != i), db.nextId⟩) := by
      unfold crud.delete_note
      rw [if_neg (by simp [hnone])]
    rw [h2]
    refine ⟨hdel, ?_⟩
    unfold delete_note
    rw [hdel]
    rfl
  · unfold crud.delete_note at h
    rw [if_neg hc] at h
    simp at h

theorem delete_idempotent_witness :
    (crud.delete_note sampleStore 1).1 = true
    ∧ (crud.delete_note (crud.delete_note sampleStore 1).2 1
          = (false, (crud.delete_note sampleStore 1).2)
      ∧ routeStatus 200 (delete_note (crud.delete_note sampleStore 1).2 1).1 = 404) :=
  ⟨by decide, delete_idempotent sampleStore 1 (by decide)⟩

/-- C3: for every store, skip and positive limit, listing returns
exactly the contiguous sub-sequence of the matching notes starting at
offset `skip`, of length at most `limit`; under the store invariant the
matching sequence is ordered by id ascending. -/
theorem pagination_law (db : Store) (hwf : db.Wf) (s l : Nat) (hl : 0 < l)
    (q : Option String) :
    crud.get_notes db s l q = ((crud.list_notes_matching db q).drop s).take l
    ∧ (crud.list_notes_matching db q).Pairwise (fun a b => a.id < b.id)
    ∧ (crud.get_notes db s l q).length ≤ l
    ∧ (∀ n, n ∈ crud.list_notes_matching db q ↔
        n ∈ db.notes ∧ ∀ t, q = some t → strContains n.title t = true) := by
  refine ⟨rfl, ?_, List.length_take_le l _, ?_⟩
  · cases q with
    | none => exact hwf.2
    | some t => exact hwf.2.filter _
  · intro n
    cases q with
    | none => simp [crud.list_notes_matching]
    | some t => simp [crud.list_notes_matching, List.mem_filter]

theorem pagination_law_witness :
    sampleStore.Wf ∧ 0 < 1
    ∧ (crud.get_notes sampleStore 0 1 none
          = ((crud.list_notes_matching sampleStore none).drop 0).take 1
      ∧ (crud.list_notes_matching sampleStore none).Pairwise (fun a b => a.id < b.id)
      ∧ (crud.get_notes sampleStore 0 1 none).length ≤ 1
      ∧ (∀ n, n ∈ crud.list_notes_matching sampleStore none ↔
          n ∈ sampleStore.notes ∧ ∀ t, (none : Option String) = some t →
            strContains n.title t = true)) :=
  ⟨by decide, by decide, pagination_law sampleStore (by decide) 0 1 (by decide) none⟩

/-- C4: listing with a search term returns exactly the notes whose
title contains the term as a substring (subject to pagination), and an
absent search term behaves exactly like the empty search term: both
leave all notes in. -/
theorem search_law (db : Store) (s l : Nat) (t : String) :
    crud.get_notes db s l (some t)
        = ((db.notes.filter (fun n => strContains n.title t)).drop s).take l
    ∧ (∀ n, n ∈ db.notes.filter (fun n => strContains n.title t) ↔
        n ∈ db.notes ∧ ∃ pre post, n.title.data = pre ++ t.data ++ post)
    ∧ crud.get_notes db s l none = crud.get_notes db s l (some "")
    ∧ crud.get_notes db s l none = (db.notes.drop s).take l := by
  refine ⟨rfl, ?_, ?_, rfl⟩
  · intro n
    rw [List.mem_filter]
    constructor
    · rintro ⟨h1, h2⟩
      exact ⟨h1, (charsSub_iff t.data n.title.data).mp h2⟩
    · rintro ⟨h1, h2⟩
      exact ⟨h1, (charsSub_iff t.data n.title.data).mpr h2⟩
  · have hall : db.notes.filter (fun n => strContains n.title "") = db.notes := by
      apply List.filter_eq_self.mpr
      intro a _
      exact charsSub_nil a.title.data
    simp [crud.get_notes, crud.list_notes_matching, hall]

/-- C7: a creation request whose body fails contract validation — a
required field missing or not text — is answered 422 and never reaches
the Data Access Layer: the store is returned unchanged.  Likewise for a
wrongly typed update body. -/
theorem validation_rejected (db : Store) (note_id : Nat) (raw : RawBody) :
    (parseNoteCreate raw = none → post_notes db raw = ((422, none), db))
    ∧ (raw.title = none ∨ raw.body = none → parseNoteCreate raw = none)
    ∧ (parseNoteUpdate raw = none → put_notes db note_id raw = ((422, none), db)) := by
  refine ⟨?_, ?_, ?_⟩
  · intro h
    unfold post_notes
    rw [h]
  · rintro (h | h) <;> simp [parseNoteCreate, asText, h]
  · intro h
    unfold put_notes
    rw [h]

theorem validation_rejected_witness :
    (parseNoteCreate ⟨none, some (Json.str "milk, eggs")⟩ = none →
      post_notes sampleStore ⟨none, some (Json.str "milk, eggs")⟩
        = ((422, none), sampleStore))
    ∧ post_notes sampleStore ⟨none, some (Json.str "milk, eggs")⟩
        = ((422, none), sampleStore) :=
  ⟨(validation_rejected sampleStore 1 ⟨none, some (Json.str "milk, eggs")⟩).1,
   (validation_rejected sampleStore 1 ⟨none, some (Json.str "milk, eggs")⟩).1 rfl⟩

/-- C8: the status codes are exactly 200 for successful list, read,
update and delete, 201 for successful create (carrying the created
note), 404 for not-found, and 422 for validation failure. -/
theorem status_codes (db : Store) (i : Nat) (raw : RawBody) (nu : NoteUpdate)
    (sk l : Option Nat) (q : Option String) :
    routeStatus 200 (get_notes db sk l q) = 200
    ∧ routeStatus 200 (get_note db i) = (if (crud.get_note db i).isSome then 200 else 404)
    ∧ (post_notes db raw).1.1 = (if (parseNoteCreate raw).isSome then 201 else 422)
    ∧ (∀ nc, parseNoteCreate raw = some nc →
        (post_notes db raw).1.2 = some (crud.create_note db nc.title nc.body).1
        ∧ (post_notes db raw).2 = (crud.create_note db nc.title nc.body).2)
    ∧ routeStatus 200 (update_note db i nu).1
        = (if (crud.update_note db i nu.title nu.body).1.isSome then 200 else 404)
    ∧ routeStatus 200 (delete_note db i).1
        = (if (crud.delete_note db i).1 then 200 else 404) := by
  refine ⟨rfl, ?_, ?_, ?_, ?_, ?_⟩
  · unfold get_note
    cases hg : crud.get_note db i <;> simp [hg, routeStatus]
  · unfold post_notes
    cases parseNoteCreate raw <;> rfl
  · intro nc hnc
    unfold post_notes
    rw [hnc]
    exact ⟨rfl, rfl⟩
  · unfold update_note
    rcases crud.update_note db i nu.title nu.body with ⟨o, s⟩
    cases o <;> rfl
  · unfold delete_note
    rcases crud.delete_note db i with ⟨b, s⟩
    cases b <;> rfl

theorem status_codes_witness :
    parseNoteCreate ⟨some (Json.str "Groceries"), some (Json.str "milk, eggs")⟩
        = some ⟨"Groceries", "milk, eggs"⟩
    ∧ ((post_notes sampleStore
            ⟨some (Json.str "Groceries"), some (Json.str "milk, eggs")⟩).1.2
          = some (crud.create_note sampleStore "Groceries" "milk, eggs").1
      ∧ (post_notes sampleStore
            ⟨some (Json.str "Groceries"), some (Json.str "milk, eggs")⟩).2
          = (crud.create_note sampleStore "Groceries" "milk, eggs").2) :=
  ⟨rfl,
   (status_codes sampleStore 1
      ⟨some (Json.str "Groceries"), some (Json.str "milk, eggs")⟩
      ⟨none, none⟩ none none none).2.2.2.1 ⟨"Groceries", "milk, eggs"⟩ rfl⟩

/-- C9: the database session acquired for a request is closed when the
request completes on every exit path: the `finally` of `get_db` runs
whether the handler returned normally or raised, and the handler's
outcome — success or `HTTPException` — passes through unchanged. -/
theorem session_scoped (ρ : Type)
    (handler : DbSession → Store → Except HTTPException ρ × Store) (db0 : Store) :
    ((run_with_db handler db0).2).isOpen = false
    ∧ (run_with_db handler db0).1 = handler ⟨true⟩ db0 :=
  ⟨rfl, rfl⟩

/-- C10: when the `skip` or `limit` query parameter is absent,
`GET /notes` applies the declared defaults `skip = 0`, `limit = 100`;
in particular a parameterless list request returns at most 100 notes. -/
theorem list_defaults (db : Store) (q : Option String) :
    get_notes db none none q = Except.ok (crud.get_notes db 0 100 q)
    ∧ (∀ sk : Nat, get_notes db (some sk) none q = Except.ok (crud.get_notes db sk 100 q))
    ∧ (∀ lim : Nat, get_notes db none (some lim) q = Except.ok (crud.get_notes db 0 lim q))
    ∧ (crud.get_notes db 0 100 q).length ≤ 100 :=
  ⟨rfl, fun _ => rfl, fun _ => rfl, List.length_take_le 100 _⟩
